import Mathlib

/-!
Verification of the concurrent frame-pipeline runner of the `tachibana`
repository (`src/game/runner.rs`), against its natural-language specification.

The runner wires two threads through three bounded `std::sync::mpsc`
`sync_channel`s:
  * a frame channel of capacity `PIC_QUEUE_LENGTH = 1` (pictures, logic → presentation),
  * an event channel of capacity `EVENT_QUEUE_SIZE = 8` (OS events / crash
    notifications, presentation → logic),
  * a feedback channel of capacity `FEEDBACK_QUEUE_SIZE = 1` (exit signal,
    logic → presentation).

We shallowly embed the channel operations (`try_send`, `try_recv`, blocking
`send`) as pure functions on an explicit queue state, and the bodies of
`Runner::game_thread`, `Runner::handle_event` and the presentation loop in
`Runner::run` as step functions that return a trace of observable actions
(hook invocations, channel operations, sleeps) together with the successor
state.  Time (`Instant` / `Duration`) is embedded as natural numbers counting
nanoseconds; the `TimeState` helper type is not part of the sources under
`src/`, so its two operations used by the runner (`last_update`-elapsed and
`update`) are modelled from the spec as a "timing tracker" recording the
instant of its last tick.
-/

namespace Tachibana

/-! ## Bounded SPSC channels (`std::sync::mpsc::sync_channel`) -/

/-- State of one bounded `sync_channel`: the queued elements in FIFO order,
the capacity passed to `sync_channel`, and whether the other endpoint is
still alive (`connected = false` models a dropped `Receiver`/`Sender`). -/
structure Chan (α : Type) where
  queue : List α
  cap : Nat
  connected : Bool
  deriving Repr, DecidableEq

/-- Embedding of `std::sync::mpsc::TrySendError` (payload dropped: it is not used by the
runner except to discard it). -/
inductive TrySendErr
  | full
  | disconnected
  deriving Repr, DecidableEq

/-- Embedding of `SyncSender::try_send`: fails with `Disconnected` when the receiver is
gone, with `Full` when the queue already holds `cap` elements, and otherwise
enqueues at the back. -/
def Chan.trySend {α : Type} (c : Chan α) (a : α) : Except TrySendErr (Chan α) :=
  if c.connected = false then .error .disconnected
  else if c.queue.length < c.cap then .ok { c with queue := c.queue ++ [a] }
  else .error .full

/-- Result of the blocking `SyncSender::send`: either the element is
enqueued, or the call blocks until space frees up (`blocked`, queue full —
the element is never dropped), or the receiver is gone and the call returns
`SendError`. -/
inductive SendOutcome (α : Type)
  | sent (c : Chan α)
  | blocked
  | disconnected
  deriving Repr

/-- Embedding of the blocking `SyncSender::send`: blocks while the queue is full, errs when the
receiver disconnected, otherwise enqueues at the back. -/
def Chan.send {α : Type} (c : Chan α) (a : α) : SendOutcome α :=
  if c.connected = false then .disconnected
  else if c.queue.length < c.cap then .sent { c with queue := c.queue ++ [a] }
  else .blocked

/-- Embedding of `std::sync::mpsc::TryRecvError`. -/
inductive TryRecvErr
  | empty
  | disconnected
  deriving Repr, DecidableEq

/-- Embedding of `Receiver::try_recv`: dequeues from the front; on an empty queue it
reports `Empty` while the sender is alive and `Disconnected` once it is
gone. -/
def Chan.tryRecv {α : Type} (c : Chan α) : Except TryRecvErr (α × Chan α) :=
  match c.queue with
  | a :: rest => .ok (a, { c with queue := rest })
  | [] => if c.connected then .error .empty else .error .disconnected

/-! ## Runner constants (`impl Runner`) -/

/-- Constant `Runner::PIC_QUEUE_LENGTH`: capacity of the frame (picture) channel. -/
def PIC_QUEUE_LENGTH : Nat := 1

/-- Constant `Runner::EVENT_QUEUE_SIZE`: capacity of the input-event channel. -/
def EVENT_QUEUE_SIZE : Nat := 8

/-- Constant `Runner::FEEDBACK_QUEUE_SIZE`: capacity of the feedback channel. -/
def FEEDBACK_QUEUE_SIZE : Nat := 1

/-! ## Frame handoff (`pic_tx.try_send` in `Runner::game_thread`) -/

/-- What `game_thread` does with the result of `pic_tx.try_send`:
the frame went through, or was silently discarded (`TrySendError::Full(_)`
arm, an empty block), or the thread panics
("Failed to send canvas to draw thread (disconnected channel)"). -/
inductive SubmitFrameResult
  | sent
  | droppedFull
  | panicDisconnected
  deriving Repr, DecidableEq

/-- The frame-handoff fragment of `Runner::game_thread`: attempt a
non-blocking send of the finished picture; on `Full` skip the frame
(queue unchanged), on `Disconnected` panic.  Pictures are abstracted by a
`Nat` identifier. -/
def submitFrame (pic : Nat) (c : Chan Nat) : SubmitFrameResult × Chan Nat :=
  match c.trySend pic with
  | .ok c2 => (.sent, c2)
  | .error .full => (.droppedFull, c)
  | .error .disconnected => (.panicDisconnected, c)

/-- Iterated producer with no consumer: submit frames `0, 1, ..., n-1` in
order, threading the channel state, never receiving. -/
def submitFrames : Nat → Chan Nat → Chan Nat
  | 0, c => c
  | n + 1, c => (submitFrame n (submitFrames n c)).2

/-- The frame channel as `Runner::run` creates it:
`sync_channel(Self::PIC_QUEUE_LENGTH)`, both endpoints alive, empty. -/
def initPicChan : Chan Nat := { queue := [], cap := PIC_QUEUE_LENGTH, connected := true }

theorem submitFrame_full_drops (pic : Nat) (c : Chan Nat)
    (hconn : c.connected = true) (hfull : ¬ c.queue.length < c.cap) :
    submitFrame pic c = (.droppedFull, c) := by
  simp [submitFrame, Chan.trySend, hconn, hfull]

theorem submitFrame_disconnected_panics (pic : Nat) (c : Chan Nat)
    (hconn : c.connected = false) :
    (submitFrame pic c).1 = .panicDisconnected := by
  simp [submitFrame, Chan.trySend, hconn]

theorem submitFrame_connected (pic : Nat) (c : Chan Nat) :
    (submitFrame pic c).2.connected = c.connected := by
  by_cases h1 : c.connected = false
  · simp [submitFrame, Chan.trySend, h1]
  · by_cases h2 : c.queue.length < c.cap <;>
      simp [submitFrame, Chan.trySend, h1, h2]

theorem submitFrame_cap (pic : Nat) (c : Chan Nat) :
    (submitFrame pic c).2.cap = c.cap := by
  by_cases h1 : c.connected = false
  · simp [submitFrame, Chan.trySend, h1]
  · by_cases h2 : c.queue.length < c.cap <;>
      simp [submitFrame, Chan.trySend, h1, h2]

theorem submitFrame_queue_len (pic : Nat) (c : Chan Nat)
    (hconn : c.connected = true) :
    (submitFrame pic c).2.queue.length =
      if c.queue.length < c.cap then c.queue.length + 1 else c.queue.length := by
  have h1 : ¬ c.connected = false := by simp [hconn]
  by_cases h2 : c.queue.length < c.cap <;>
    simp [submitFrame, Chan.trySend, h1, h2]

theorem submitFrames_connected (n : Nat) (c : Chan Nat)
    (h : c.connected = true) : (submitFrames n c).connected = true := by
  induction n with
  | zero => simpa [submitFrames]
  | succ k ih => simp [submitFrames, submitFrame_connected, ih]

theorem submitFrames_cap (n : Nat) (c : Chan Nat) :
    (submitFrames n c).cap = c.cap := by
  induction n with
  | zero => simp [submitFrames]
  | succ k ih => simp [submitFrames, submitFrame_cap, ih]

theorem submitFrames_len (n : Nat) :
    (submitFrames n initPicChan).queue.length = min n 1 := by
  induction n with
  | zero => simp [submitFrames, initPicChan]
  | succ k ih =>
    have hconn : (submitFrames k initPicChan).connected = true :=
      submitFrames_connected k initPicChan rfl
    have hcap : (submitFrames k initPicChan).cap = 1 :=
      submitFrames_cap k initPicChan
    have hlen := submitFrame_queue_len k (submitFrames k initPicChan) hconn
    rw [hcap, ih] at hlen
    show (submitFrame k (submitFrames k initPicChan)).2.queue.length = min (k + 1) 1
    rw [hlen]
    by_cases hk : min k 1 < 1
    · rw [if_pos hk]; omega
    · rw [if_neg hk]; omega

/-- C1: the frame handoff is an attempted non-blocking send; with the
capacity-1 frame channel and no consumer, every frame past the first is
silently discarded with the queue state unchanged, so after `n` produced
frames the channel holds exactly `min n 1`; and when the frame channel is
disconnected (receiver gone) the logic thread panics. -/
theorem frame_handoff_backpressure :
    PIC_QUEUE_LENGTH = 1 ∧
    (∀ n : Nat, (submitFrames n initPicChan).queue.length = min n 1) ∧
    (∀ (pic : Nat) (c : Chan Nat), c.connected = true →
      ¬ c.queue.length < c.cap → submitFrame pic c = (.droppedFull, c)) ∧
    (∀ (pic : Nat) (c : Chan Nat), c.connected = false →
      (submitFrame pic c).1 = .panicDisconnected) := by
  refine ⟨rfl, submitFrames_len, ?_, ?_⟩
  · intro pic c hconn hfull
    exact submitFrame_full_drops pic c hconn hfull
  · intro pic c hconn
    exact submitFrame_disconnected_panics pic c hconn

/-! ## Events and `Runner::handle_event` -/

/-- Embedding of the runtime error enum `Error` of `runner.rs`: a renderer
(Vulkan) failure; the `VkResult` code is embedded as an integer. -/
inductive Error
  | RendererError (code : Int)
  deriving Repr, DecidableEq

/-- Modelled from the spec: the `EventHandleResult` enum returned by
`InputState::handle_event` (module `src/game/input.rs`, not under `src/`).
Its three variants are fixed by the match in `Runner::handle_event`: a
normalized input event for the game, a window resize, or an exit request;
the input-event and size payloads are abstracted as naturals. -/
inductive EventHandleResult
  | Input (i : Nat)
  | Resized (w h : Nat)
  | Exit
  deriving Repr, DecidableEq

/-- Embedding of the `Event` enum of `runner.rs` (presentation → logic
messages).  An `Sdl2Event` payload is abstracted by the
`Option<EventHandleResult>` that `InputState::handle_event` returns for it
(that translation lives in the `input` module, not under `src/`, and the
runner only ever inspects the event through it). -/
inductive Event
  | Sdl2Event (r : Option EventHandleResult)
  | Crash (e : Error)
  deriving Repr, DecidableEq

/-- Embedding of the `FeedbackEvent` enum of `runner.rs` (logic →
presentation). -/
inductive FeedbackEvent
  | Exit
  deriving Repr, DecidableEq

/-- Observable actions of the logic thread, in program order: simulation
hook invocations, channel operations, sleeps, timing-tracker ticks, and
panics (with their message). -/
inductive Action
  | update
  | input (i : Nat)
  | setSize (w h : Nat)
  | close
  | crash (e : Error)
  | draw
  | frameSent
  | frameDropped
  | sendFeedbackExit
  | sleep (d : Nat)
  | drawTick
  | updateTick
  | panicked (msg : String)
  deriving Repr, DecidableEq

/-- How one call of `Runner::handle_event` ends: fall through (`false`),
`return true` (terminal), block inside `feedback_tx.send`, or panic. -/
inductive HandleOutcome
  | next
  | terminal
  | blocked
  | panicked
  deriving Repr, DecidableEq

/-- Panic message of the `expect` on `feedback_tx.send` in
`Runner::handle_event`. -/
def FEEDBACK_PANIC_MESSAGE : String := "Failed to send feedback event to draw thread"

/-- Embedding of `Runner::handle_event`: dispatch one received event.
An SDL2 event is interpreted through `InputState::handle_event` (already
folded into the `Event.Sdl2Event` payload here): `None` does nothing,
`Input` calls `game.input`, `Resized` calls `game.set_size`, `Exit` calls
`game.close()` then sends the exit feedback (blocking, `expect`-panicking
on disconnect) and returns `true`.  A `Crash` event calls `game.crash(e)`
then likewise sends the exit feedback and returns `true`. -/
def handle_event (e : Event) (fb : Chan FeedbackEvent) :
    List Action × Chan FeedbackEvent × HandleOutcome :=
  match e with
  | .Sdl2Event none => ([], fb, .next)
  | .Sdl2Event (some (.Input i)) => ([.input i], fb, .next)
  | .Sdl2Event (some (.Resized w h)) => ([.setSize w h], fb, .next)
  | .Sdl2Event (some .Exit) =>
    match fb.send .Exit with
    | .sent fb2 => ([.close, .sendFeedbackExit], fb2, .terminal)
    | .blocked => ([.close], fb, .blocked)
    | .disconnected => ([.close, .panicked FEEDBACK_PANIC_MESSAGE], fb, .panicked)
  | .Crash err =>
    match fb.send .Exit with
    | .sent fb2 => ([.crash err, .sendFeedbackExit], fb2, .terminal)
    | .blocked => ([.crash err], fb, .blocked)
    | .disconnected => ([.crash err, .panicked FEEDBACK_PANIC_MESSAGE], fb, .panicked)

/-- How the inner event-drain loop of `Runner::game_thread` ends:
`break` on `TryRecvError::Empty` (fall through to frame timing), `return`
(after a terminal `handle_event` or on `TryRecvError::Disconnected`), or a
blocked / panicking `handle_event`. -/
inductive DrainOutcome
  | drained
  | returned
  | blocked
  | panicked
  deriving Repr, DecidableEq

/-- Embedding of the inner `loop` of `Runner::game_thread`: repeatedly
`try_recv` from the event channel, dispatching each event through
`handle_event` and returning from the thread when it reports terminal; an
empty queue breaks out of the loop, and an empty disconnected queue
returns from the thread.  The event channel is given as its FIFO queue
`pending` plus the liveness `connected` of its sender. -/
def drainLoop (connected : Bool) :
    List Event → Chan FeedbackEvent → List Action × Chan FeedbackEvent × DrainOutcome
  | [], fb => ([], fb, if connected then .drained else .returned)
  | e :: rest, fb =>
    match handle_event e fb with
    | (acts, fb2, .next) =>
      let r := drainLoop connected rest fb2
      (acts ++ r.1, r.2.1, r.2.2)
    | (acts, fb2, .terminal) => (acts, fb2, .returned)
    | (acts, fb2, .blocked) => (acts, fb2, .blocked)
    | (acts, fb2, .panicked) => (acts, fb2, .panicked)

/-! ## The logic-thread loop (`Runner::game_thread`)

Durations and instants are naturals counting nanoseconds.  The embedding
idealizes all computation (hooks, channel operations) as instantaneous:
the clock advances only inside `thread::sleep`.  The two `TimeState`
values (`time_state` for the update cadence, `time_state_draw` for the
draw cadence) are modelled from the spec as timing trackers recording the
instant of their last tick (`last_update`) plus a tick counter; the
runner uses them only through `last_update().elapsed()` and `update()`. -/

/-- One nanosecond count of `Duration::MILLISECOND`. -/
def MILLISECOND : Nat := 1000000

/-- Constant `target_update_time = Duration::MILLISECOND` of
`Runner::game_thread` (1000 fps). -/
def target_update_time : Nat := MILLISECOND

/-- Constant `target_frame_time = Duration::MILLISECOND * 8` of
`Runner::game_thread` (120 fps). -/
def target_frame_time : Nat := MILLISECOND * 8

/-- Panic message of the `expect` on `finish_recording_as_picture` in
`Runner::game_thread` (the recording itself is out of scope: the embedding
assumes it succeeds). -/
def RECORD_PANIC_MESSAGE : String := "Failed to finish recording picture while rendering"

/-- Mutable state of the logic thread visible to the pacing algorithm:
the current instant, the `last_frame` instant, and the two timing
trackers (last-tick instant and tick count each). -/
structure LogicState where
  now : Nat
  lastFrame : Nat
  lastUpdate : Nat
  lastDraw : Nat
  updateTicks : Nat
  drawTicks : Nat
  deriving Repr, DecidableEq

/-- How one iteration of the outer `loop` of `Runner::game_thread` ends:
continue with a successor state, `return` from the thread, block, or
panic. -/
inductive IterOutcome
  | next (s : LogicState) (pic : Chan Nat) (fb : Chan FeedbackEvent)
  | returned (pic : Chan Nat) (fb : Chan FeedbackEvent)
  | blocked
  | panicked
  deriving Repr, DecidableEq

/-- Embedding of one iteration of the outer `loop` of
`Runner::game_thread`:
1. `game.update()`;
2. drain the event channel (`drainLoop`), returning from the thread if it
   says so;
3. if `last_frame.elapsed() > target_frame_time`: advance `last_frame` by
   the overshoot only (`Instant::now() - (frame_time - target_frame_time)`),
   record the picture via `game.draw`, hand it off with the lossy
   `try_send` (`submitFrame`), and tick `time_state_draw`;
4. if no redraw happened and `time_state.last_update().elapsed()` is less
   than `target_update_time`, sleep the remaining duration; then tick
   `time_state`.
Frames are identified by the draw-tick count at which they are produced. -/
def gameIter (pending : List Event) (evConnected : Bool) (pic : Chan Nat)
    (fb : Chan FeedbackEvent) (s : LogicState) : List Action × IterOutcome :=
  let r := drainLoop evConnected pending fb
  let acts0 := Action.update :: r.1
  match r.2.2 with
  | .returned => (acts0, .returned pic r.2.1)
  | .blocked => (acts0, .blocked)
  | .panicked => (acts0, .panicked)
  | .drained =>
    let fb2 := r.2.1
    let frame_time := s.now - s.lastFrame
    if frame_time > target_frame_time then
      let s1 := { s with lastFrame := s.now - (frame_time - target_frame_time) }
      match submitFrame s.drawTicks pic with
      | (.panicDisconnected, _) =>
        (acts0 ++ [.draw,
          .panicked "Failed to send canvas to draw thread (disconnected channel)"],
         .panicked)
      | (.sent, pic2) =>
        let s2 := { s1 with lastDraw := s1.now, drawTicks := s1.drawTicks + 1,
                            lastUpdate := s1.now, updateTicks := s1.updateTicks + 1 }
        (acts0 ++ [.draw, .frameSent, .drawTick, .updateTick], .next s2 pic2 fb2)
      | (.droppedFull, pic2) =>
        let s2 := { s1 with lastDraw := s1.now, drawTicks := s1.drawTicks + 1,
                            lastUpdate := s1.now, updateTicks := s1.updateTicks + 1 }
        (acts0 ++ [.draw, .frameDropped, .drawTick, .updateTick], .next s2 pic2 fb2)
    else
      let update_time := s.now - s.lastUpdate
      if target_update_time > update_time then
        let d := target_update_time - update_time
        let s2 := { s with now := s.now + d, lastUpdate := s.now + d,
                           updateTicks := s.updateTicks + 1 }
        (acts0 ++ [.sleep d, .updateTick], .next s2 pic fb2)
      else
        let s2 := { s with lastUpdate := s.now, updateTicks := s.updateTicks + 1 }
        (acts0 ++ [.updateTick], .next s2 pic fb2)

/-- State of the logic thread right after `game_thread` is entered:
`last_frame = Instant::now()` and both trackers freshly created, at
instant 0. -/
def initLogicState : LogicState :=
  { now := 0, lastFrame := 0, lastUpdate := 0, lastDraw := 0,
    updateTicks := 0, drawTicks := 0 }

/-- The feedback channel as `Runner::run` creates it:
`sync_channel(Self::FEEDBACK_QUEUE_SIZE)`, both endpoints alive, empty. -/
def initFeedbackChan : Chan FeedbackEvent :=
  { queue := [], cap := FEEDBACK_QUEUE_SIZE, connected := true }

/-- Iterate the logic loop `n` times with an empty event queue (no input),
threading the channels, and return the final `LogicState` (unchanged if
the loop stops early). -/
def gameRun : Nat → Chan Nat → Chan FeedbackEvent → LogicState → LogicState
  | 0, _, _, s => s
  | n + 1, pic, fb, s =>
    match (gameIter [] true pic fb s).2 with
    | .next s2 pic2 fb2 => gameRun n pic2 fb2 s2
    | _ => s

/-! ## The presentation loop (`'events: loop` in `Runner::run`) -/

/-- Observable actions of one presentation-loop iteration. -/
inductive PresentAction
  | forwardEvent (r : Option EventHandleResult)
  | presentFrame (pic : Nat)
  | forwardCrash (e : Error)
  | sleepMs
  deriving Repr, DecidableEq

/-- How the `for event in event_pump.poll_iter()` forwarding pass ends:
all events sent, `break 'events` because `event_tx.send` returned `Err`
(receiver gone), or blocked inside the bounded `send`. -/
inductive ForwardOutcome
  | ok
  | disconnectedStop
  | blocked
  deriving Repr, DecidableEq

/-- Embedding of the event-forwarding `for` loop of `Runner::run`: send
each pumped OS event (already abstracted by its `InputState::handle_event`
interpretation) over the event channel with the blocking `send`; an `Err`
result breaks the whole presentation loop. -/
def forwardEvents : List (Option EventHandleResult) → Chan Event →
    List PresentAction × Chan Event × ForwardOutcome
  | [], ev => ([], ev, .ok)
  | r :: rest, ev =>
    match ev.send (.Sdl2Event r) with
    | .sent ev2 =>
      let t := forwardEvents rest ev2
      (.forwardEvent r :: t.1, t.2.1, t.2.2)
    | .blocked => ([], ev, .blocked)
    | .disconnected => ([], ev, .disconnectedStop)

/-- How one iteration of the presentation loop ends: continue looping,
`break 'events`, or blocked inside a bounded `send`. -/
inductive PresentOutcome
  | next
  | stop
  | blocked
  deriving Repr, DecidableEq

/-- Embedding of one iteration of the `'events: loop` of `Runner::run`.
Inputs per iteration: the batch of OS events the event pump yields and
whether `renderer.draw` would fail this iteration (`rendererErr`).  Order
of the body: non-blocking check of the feedback channel (an `Exit` breaks
immediately, as does a disconnected feedback channel); then forward all
pumped OS events; then non-blocking receive of a frame — if one is there,
present it (on renderer failure, best-effort send of a `Crash`
notification, result ignored, then break); if none, sleep one millisecond
on `Empty`, break on `Disconnected`. -/
def presentIter (osEvents : List (Option EventHandleResult))
    (rendererErr : Option Error) (fb : Chan FeedbackEvent) (ev : Chan Event)
    (pic : Chan Nat) :
    List PresentAction × Chan FeedbackEvent × Chan Event × Chan Nat × PresentOutcome :=
  match fb.tryRecv with
  | .ok (.Exit, fb2) => ([], fb2, ev, pic, .stop)
  | .error .disconnected => ([], fb, ev, pic, .stop)
  | .error .empty =>
    match forwardEvents osEvents ev with
    | (facts, ev2, .disconnectedStop) => (facts, fb, ev2, pic, .stop)
    | (facts, ev2, .blocked) => (facts, fb, ev2, pic, .blocked)
    | (facts, ev2, .ok) =>
      match pic.tryRecv with
      | .ok (p, pic2) =>
        match rendererErr with
        | none => (facts ++ [.presentFrame p], fb, ev2, pic2, .next)
        | some err =>
          match ev2.send (.Crash err) with
          | .sent ev3 => (facts ++ [.forwardCrash err], fb, ev3, pic2, .stop)
          | .disconnected => (facts ++ [.forwardCrash err], fb, ev2, pic2, .stop)
          | .blocked => (facts, fb, ev2, pic2, .blocked)
      | .error .empty => (facts ++ [.sleepMs], fb, ev2, pic, .next)
      | .error .disconnected => (facts, fb, ev2, pic, .stop)

/-- The event channel as `Runner::run` creates it:
`sync_channel(Self::EVENT_QUEUE_SIZE)`, both endpoints alive, empty. -/
def initEventChan : Chan Event :=
  { queue := [], cap := EVENT_QUEUE_SIZE, connected := true }

/-! ## Shared simulation state (`State`) and the id generator (`ID`)

The Rust `State` lives in a `thread_local! RefCell<Option<State>>`; a cell
value of `none` models both "before the logic thread initialized it" and
"on a thread where it was never initialized" (`thread_local!` starts every
thread at `None`).  Accessors `expect` the option, so on `none` they panic
with `State::PANIC_MESSAGE`; panics are embedded as `Except.error` carrying
the message.  The fields behind accessors whose defining modules are not
under `src/` (`InputState.mouse_position`, the `TimeState` queries) are
modelled from the spec as an input snapshot and last-tick instants. -/

/-- Constant `State::PANIC_MESSAGE`. -/
def PANIC_MESSAGE : String := "Attempt to get game state while game is uninitialised"

/-- Embedding of the `State` struct: the pointer-position snapshot of its
`InputState`, the last-tick instants of its two `TimeState`s (modelled
from the spec: a timing tracker records the instant of its last tick), and
the `id_keeper` counter (a `u64`, embedded as a natural reduced mod 2^64 at
each increment).  The font registry is out of scope. -/
structure GameState where
  mouse_position : Int × Int
  time_state_last : Nat
  time_state_draw_last : Nat
  id_keeper : Nat
  deriving Repr, DecidableEq

namespace State

/-- Embedding of `State::with`: run a read-only closure against the
thread-local cell, panicking with `PANIC_MESSAGE` when it is
uninitialized. -/
def «with» {R : Type} (cell : Option GameState) (f : GameState → R) :
    Except String R :=
  match cell with
  | none => .error PANIC_MESSAGE
  | some s => .ok (f s)

/-- Embedding of `State::with_mut`: run a mutating closure (returning the
updated state and a result) against the thread-local cell, panicking with
`PANIC_MESSAGE` when it is uninitialized. -/
def with_mut {R : Type} (cell : Option GameState) (f : GameState → GameState × R) :
    Except String (GameState × R) :=
  match cell with
  | none => .error PANIC_MESSAGE
  | some s => .ok (f s)

/-- Embedding of the snapshot query `State::elapsed`
(`time_state.elapsed()`, modelled from the spec as the duration since the
tracker's last tick): panics with `PANIC_MESSAGE` when uninitialized. -/
def elapsed (cell : Option GameState) (now : Nat) : Except String Nat :=
  match cell with
  | none => .error PANIC_MESSAGE
  | some s => .ok (now - s.time_state_last)

/-- Embedding of the snapshot query `State::mouse_position`: panics with
`PANIC_MESSAGE` when uninitialized. -/
def mouse_position (cell : Option GameState) : Except String (Int × Int) :=
  match cell with
  | none => .error PANIC_MESSAGE
  | some s => .ok s.mouse_position

end State

/-- Modulus of Rust `u64` arithmetic. -/
def U64_MOD : Nat := 2 ^ 64

/-- Embedding of `ID::next` at the level of the state it mutates: read the
current `id_keeper`, store it back incremented by one (u64 arithmetic),
and return the read value as the fresh identifier. -/
def ID.next (s : GameState) : Nat × GameState :=
  (s.id_keeper, { s with id_keeper := (s.id_keeper + 1) % U64_MOD })

/-- State after `n` successive `ID::next` calls starting from `s`. -/
def idIter : Nat → GameState → GameState
  | 0, s => s
  | n + 1, s => (ID.next (idIter n s)).2

/-- Identifier returned by the `n`-th (0-indexed) `ID::next` call starting
from `s`. -/
def idAt (n : Nat) (s : GameState) : Nat := (ID.next (idIter n s)).1

/-- The `State` as `Runner::run` initializes it in the spawned logic
thread (`id_keeper: 0`, fresh trackers at instant 0); the pointer
starts wherever the OS reports it, abstracted as the origin. -/
def initGameState : GameState :=
  { mouse_position := (0, 0), time_state_last := 0, time_state_draw_last := 0,
    id_keeper := 0 }

/-! ## Helper lemmas -/

theorem send_room {α : Type} (c : Chan α) (a : α) (hconn : c.connected = true)
    (hroom : c.queue.length < c.cap) :
    c.send a = .sent { c with queue := c.queue ++ [a] } := by
  simp [Chan.send, hconn, hroom]

theorem send_full_blocks {α : Type} (c : Chan α) (a : α) (hconn : c.connected = true)
    (hfull : ¬ c.queue.length < c.cap) : c.send a = .blocked := by
  simp [Chan.send, hconn, hfull]

theorem submitFrame_connected_no_panic (p : Nat) (c : Chan Nat)
    (hconn : c.connected = true) :
    (submitFrame p c).1 ≠ SubmitFrameResult.panicDisconnected := by
  have h1 : ¬ c.connected = false := by simp [hconn]
  by_cases h2 : c.queue.length < c.cap <;>
    simp [submitFrame, Chan.trySend, h1, h2]

theorem handle_event_exit (fb : Chan FeedbackEvent) (hconn : fb.connected = true)
    (hroom : fb.queue.length < fb.cap) :
    handle_event (.Sdl2Event (some .Exit)) fb =
      ([.close, .sendFeedbackExit], { fb with queue := fb.queue ++ [.Exit] }, .terminal) := by
  simp [handle_event, send_room fb .Exit hconn hroom]

theorem handle_event_crash (err : Error) (fb : Chan FeedbackEvent)
    (hconn : fb.connected = true) (hroom : fb.queue.length < fb.cap) :
    handle_event (.Crash err) fb =
      ([.crash err, .sendFeedbackExit], { fb with queue := fb.queue ++ [.Exit] }, .terminal) := by
  simp [handle_event, send_room fb .Exit hconn hroom]

theorem drainLoop_exit (connected : Bool) (fb : Chan FeedbackEvent)
    (hconn : fb.connected = true) (hroom : fb.queue.length < fb.cap) :
    drainLoop connected [.Sdl2Event (some .Exit)] fb =
      ([.close, .sendFeedbackExit], { fb with queue := fb.queue ++ [.Exit] }, .returned) := by
  simp [drainLoop, handle_event_exit fb hconn hroom]

theorem drainLoop_crash (connected : Bool) (err : Error) (fb : Chan FeedbackEvent)
    (hconn : fb.connected = true) (hroom : fb.queue.length < fb.cap) :
    drainLoop connected [.Crash err] fb =
      ([.crash err, .sendFeedbackExit], { fb with queue := fb.queue ++ [.Exit] }, .returned) := by
  simp [drainLoop, handle_event_crash err fb hconn hroom]

theorem drainLoop_inputs (connected : Bool) (inputs : List Nat) (rest : List Event)
    (fb : Chan FeedbackEvent) :
    drainLoop connected ((inputs.map fun i => Event.Sdl2Event (some (.Input i))) ++ rest) fb =
      ((inputs.map Action.input) ++ (drainLoop connected rest fb).1,
       (drainLoop connected rest fb).2.1, (drainLoop connected rest fb).2.2) := by
  induction inputs with
  | nil => simp
  | cons i is ih => simp [drainLoop, handle_event, ih]

theorem gameIter_of_drain_returned (pending : List Event) (evC : Bool) (pic : Chan Nat)
    (fb : Chan FeedbackEvent) (s : LogicState) (dacts : List Action)
    (fb2 : Chan FeedbackEvent)
    (hdr : drainLoop evC pending fb = (dacts, fb2, .returned)) :
    gameIter pending evC pic fb s = (Action.update :: dacts, .returned pic fb2) := by
  simp [gameIter, hdr]

theorem presentIter_exit_feedback (os : List (Option EventHandleResult))
    (rerr : Option Error) (fb : Chan FeedbackEvent) (ev : Chan Event)
    (pic : Chan Nat) (t : List FeedbackEvent)
    (hfb : fb.queue = FeedbackEvent.Exit :: t) :
    presentIter os rerr fb ev pic = ([], { fb with queue := t }, ev, pic, .stop) := by
  simp [presentIter, Chan.tryRecv, hfb]

theorem presentIter_idle (fb : Chan FeedbackEvent) (ev : Chan Event) (pic : Chan Nat)
    (hfb : fb.queue = []) (hfbc : fb.connected = true)
    (hpic : pic.queue = []) (hpicc : pic.connected = true) :
    presentIter [] none fb ev pic = ([.sleepMs], fb, ev, pic, .next) := by
  simp [presentIter, Chan.tryRecv, hfb, hfbc, hpic, hpicc, forwardEvents]

theorem presentIter_renderer_failure (err : Error) (fb : Chan FeedbackEvent)
    (ev : Chan Event) (pic : Chan Nat) (p : Nat) (rest : List Nat)
    (hfb : fb.queue = []) (hfbc : fb.connected = true)
    (hpq : pic.queue = p :: rest)
    (hevc : ev.connected = true) (hevroom : ev.queue.length < ev.cap) :
    presentIter [] (some err) fb ev pic =
      ([.forwardCrash err], fb, { ev with queue := ev.queue ++ [.Crash err] },
       { pic with queue := rest }, .stop) := by
  simp [presentIter, Chan.tryRecv, hfb, hfbc, hpq, forwardEvents,
    send_room ev (Event.Crash err) hevc hevroom]

theorem presentIter_no_receive_block (rerr : Option Error) (fb : Chan FeedbackEvent)
    (ev : Chan Event) (pic : Chan Nat) (hevc : ev.connected = true)
    (hroom : ev.queue.length < ev.cap) :
    (presentIter [] rerr fb ev pic).2.2.2.2 ≠ .blocked := by
  rcases hfbq : fb.queue with _ | ⟨e, t⟩
  · by_cases hfbc : fb.connected = true
    · rcases hpq : pic.queue with _ | ⟨p, rest⟩
      · by_cases hpc : pic.connected = true
        · simp [presentIter, Chan.tryRecv, hfbq, hfbc, hpq, hpc, forwardEvents]
        · simp [presentIter, Chan.tryRecv, hfbq, hfbc, hpq, hpc, forwardEvents]
      · rcases rerr with _ | err
        · simp [presentIter, Chan.tryRecv, hfbq, hfbc, hpq, forwardEvents]
        · simp [presentIter, Chan.tryRecv, hfbq, hfbc, hpq, forwardEvents,
            send_room ev (Event.Crash err) hevc hroom]
    · simp [presentIter, Chan.tryRecv, hfbq, hfbc]
  · cases e
    simp [presentIter, Chan.tryRecv, hfbq]

/-- Successor `LogicState` of an iteration outcome, when the loop
continues. -/
def IterOutcome.stateOf : IterOutcome → Option LogicState
  | .next s _ _ => some s
  | _ => none

/-- Marks the actions that event dispatch (`handle_event`) can emit, as
opposed to the per-iteration actions of the outer loop (update hook, draw,
frame handoff, sleeps, tracker ticks). -/
def Action.fromDispatch : Action → Bool
  | .input _ => true
  | .setSize _ _ => true
  | .close => true
  | .crash _ => true
  | .sendFeedbackExit => true
  | .panicked _ => true
  | _ => false

theorem handle_event_dispatch_only (e : Event) (fb : Chan FeedbackEvent) :
    ∀ a ∈ (handle_event e fb).1, a.fromDispatch = true := by
  rcases e with r | err
  · rcases r with _ | r
    · simp [handle_event]
    · rcases r with i | ⟨w, h⟩ | _
      · simp [handle_event, Action.fromDispatch]
      · simp [handle_event, Action.fromDispatch]
      · cases hs : fb.send .Exit with
        | sent fb2 => simp [handle_event, hs, Action.fromDispatch]
        | blocked => simp [handle_event, hs, Action.fromDispatch]
        | disconnected => simp [handle_event, hs, Action.fromDispatch]
  · cases hs : fb.send .Exit with
    | sent fb2 => simp [handle_event, hs, Action.fromDispatch]
    | blocked => simp [handle_event, hs, Action.fromDispatch]
    | disconnected => simp [handle_event, hs, Action.fromDispatch]

theorem drainLoop_dispatch_only (connected : Bool) (pending : List Event)
    (fb : Chan FeedbackEvent) :
    ∀ a ∈ (drainLoop connected pending fb).1, a.fromDispatch = true := by
  induction pending generalizing fb with
  | nil => simp [drainLoop]
  | cons e rest ih =>
    have hne := handle_event_dispatch_only e fb
    rcases hhe : handle_event e fb with ⟨acts, fb2, out⟩
    rw [hhe] at hne
    cases out with
    | next =>
      intro a ha
      simp [drainLoop, hhe] at ha
      rcases ha with ha | ha
      · exact hne a ha
      · exact ih fb2 a ha
    | terminal => intro a ha; simp [drainLoop, hhe] at ha; exact hne a ha
    | blocked => intro a ha; simp [drainLoop, hhe] at ha; exact hne a ha
    | panicked => intro a ha; simp [drainLoop, hhe] at ha; exact hne a ha

theorem drainLoop_no_action (connected : Bool) (pending : List Event)
    (fb : Chan FeedbackEvent) (a : Action) (ha : a.fromDispatch = false) :
    a ∉ (drainLoop connected pending fb).1 := by
  intro hmem
  have := drainLoop_dispatch_only connected pending fb a hmem
  rw [ha] at this
  cases this

theorem gameIter_no_redraw_sleep (pending : List Event) (evC : Bool)
    (pic : Chan Nat) (fb : Chan FeedbackEvent) (s : LogicState)
    (dacts : List Action) (fb2 : Chan FeedbackEvent)
    (hdr : drainLoop evC pending fb = (dacts, fb2, .drained))
    (hfr : ¬ s.now - s.lastFrame > target_frame_time)
    (hut : s.now - s.lastUpdate < target_update_time) :
    gameIter pending evC pic fb s =
      (Action.update :: dacts ++
         [Action.sleep (target_update_time - (s.now - s.lastUpdate)), Action.updateTick],
       .next { s with now := s.now + (target_update_time - (s.now - s.lastUpdate)),
                      lastUpdate := s.now + (target_update_time - (s.now - s.lastUpdate)),
                      updateTicks := s.updateTicks + 1 } pic fb2) := by
  simp [gameIter, hdr, hfr, hut]

theorem gameIter_no_redraw_no_sleep (pending : List Event) (evC : Bool)
    (pic : Chan Nat) (fb : Chan FeedbackEvent) (s : LogicState)
    (dacts : List Action) (fb2 : Chan FeedbackEvent)
    (hdr : drainLoop evC pending fb = (dacts, fb2, .drained))
    (hfr : ¬ s.now - s.lastFrame > target_frame_time)
    (hut : ¬ s.now - s.lastUpdate < target_update_time) :
    gameIter pending evC pic fb s =
      (Action.update :: dacts ++ [Action.updateTick],
       .next { s with lastUpdate := s.now, updateTicks := s.updateTicks + 1 } pic fb2) := by
  simp [gameIter, hdr, hfr, hut]

theorem gameIter_redraw (pending : List Event) (evC : Bool)
    (pic : Chan Nat) (fb : Chan FeedbackEvent) (s : LogicState)
    (dacts : List Action) (fb2 : Chan FeedbackEvent)
    (hdr : drainLoop evC pending fb = (dacts, fb2, .drained))
    (hconn : pic.connected = true)
    (hfr : s.now - s.lastFrame > target_frame_time) :
    (gameIter pending evC pic fb s).2.stateOf =
      some { s with lastFrame := s.now - (s.now - s.lastFrame - target_frame_time),
                    lastDraw := s.now, drawTicks := s.drawTicks + 1,
                    lastUpdate := s.now, updateTicks := s.updateTicks + 1 } ∧
    Action.draw ∈ (gameIter pending evC pic fb s).1 := by
  rcases hsf : submitFrame s.drawTicks pic with ⟨res, pic2⟩
  have hnp : res ≠ .panicDisconnected := by
    have h := submitFrame_connected_no_panic s.drawTicks pic hconn
    rw [hsf] at h
    exact h
  cases res with
  | sent => constructor <;> simp [gameIter, hdr, hfr, hsf, IterOutcome.stateOf]
  | droppedFull => constructor <;> simp [gameIter, hdr, hfr, hsf, IterOutcome.stateOf]
  | panicDisconnected => exact absurd rfl hnp

theorem gameIter_no_redraw_state (pending : List Event) (evC : Bool)
    (pic : Chan Nat) (fb : Chan FeedbackEvent) (s : LogicState)
    (dacts : List Action) (fb2 : Chan FeedbackEvent)
    (hdr : drainLoop evC pending fb = (dacts, fb2, .drained))
    (hfr : ¬ s.now - s.lastFrame > target_frame_time) :
    ((gameIter pending evC pic fb s).2.stateOf).map LogicState.drawTicks =
        some s.drawTicks ∧
    ((gameIter pending evC pic fb s).2.stateOf).map LogicState.lastFrame =
        some s.lastFrame ∧
    Action.draw ∉ (gameIter pending evC pic fb s).1 := by
  have hna : Action.draw ∉ dacts := by
    have h := drainLoop_no_action evC pending fb Action.draw rfl
    rw [hdr] at h
    exact h
  by_cases hut : s.now - s.lastUpdate < target_update_time
  · rw [gameIter_no_redraw_sleep pending evC pic fb s dacts fb2 hdr hfr hut]
    refine ⟨rfl, rfl, ?_⟩
    simp [hna]
  · rw [gameIter_no_redraw_no_sleep pending evC pic fb s dacts fb2 hdr hfr hut]
    refine ⟨rfl, rfl, ?_⟩
    simp [hna]

theorem gameIter_head (pending : List Event) (evC : Bool) (pic : Chan Nat)
    (fb : Chan FeedbackEvent) (s : LogicState) :
    ((gameIter pending evC pic fb s).1).head? = some Action.update := by
  rcases hdr : drainLoop evC pending fb with ⟨dacts, fb2, out⟩
  cases out with
  | drained =>
    by_cases hfr : s.now - s.lastFrame > target_frame_time
    · rcases hsf : submitFrame s.drawTicks pic with ⟨res, pic2⟩
      cases res <;> simp [gameIter, hdr, hfr, hsf]
    · by_cases hut : s.now - s.lastUpdate < target_update_time
      · simp [gameIter, hdr, hfr, hut]
      · simp [gameIter, hdr, hfr, hut]
  | returned => simp [gameIter, hdr]
  | blocked => simp [gameIter, hdr]
  | panicked => simp [gameIter, hdr]

theorem gameIter_update_count (pending : List Event) (evC : Bool) (pic : Chan Nat)
    (fb : Chan FeedbackEvent) (s : LogicState) :
    ((gameIter pending evC pic fb s).1).count Action.update = 1 := by
  rcases hdr : drainLoop evC pending fb with ⟨dacts, fb2, out⟩
  have hnu : Action.update ∉ dacts := by
    have h := drainLoop_no_action evC pending fb Action.update rfl
    rw [hdr] at h
    exact h
  have hcd : dacts.count Action.update = 0 := List.count_eq_zero.mpr hnu
  cases out with
  | drained =>
    by_cases hfr : s.now - s.lastFrame > target_frame_time
    · rcases hsf : submitFrame s.drawTicks pic with ⟨res, pic2⟩
      cases res <;>
        simp [gameIter, hdr, hfr, hsf, List.count_cons, List.count_append, hcd]
    · by_cases hut : s.now - s.lastUpdate < target_update_time
      · simp [gameIter, hdr, hfr, hut, List.count_cons, List.count_append, hcd]
      · simp [gameIter, hdr, hfr, hut, List.count_cons, List.count_append, hcd]
  | returned => simp [gameIter, hdr, List.count_cons, hcd]
  | blocked => simp [gameIter, hdr, List.count_cons, hcd]
  | panicked => simp [gameIter, hdr, List.count_cons, hcd]

theorem gameIter_updateTick_once (pending : List Event) (evC : Bool) (pic : Chan Nat)
    (fb : Chan FeedbackEvent) (s : LogicState)
    (dacts : List Action) (fb2 : Chan FeedbackEvent)
    (hdr : drainLoop evC pending fb = (dacts, fb2, .drained))
    (hconn : pic.connected = true) :
    ((gameIter pending evC pic fb s).1).count Action.updateTick = 1 := by
  have hnt : Action.updateTick ∉ dacts := by
    have h := drainLoop_no_action evC pending fb Action.updateTick rfl
    rw [hdr] at h
    exact h
  have hcd : dacts.count Action.updateTick = 0 := List.count_eq_zero.mpr hnt
  by_cases hfr : s.now - s.lastFrame > target_frame_time
  · rcases hsf : submitFrame s.drawTicks pic with ⟨res, pic2⟩
    have hnp : res ≠ .panicDisconnected := by
      have h := submitFrame_connected_no_panic s.drawTicks pic hconn
      rw [hsf] at h
      exact h
    cases res with
    | sent => simp [gameIter, hdr, hfr, hsf, List.count_cons, List.count_append, hcd]
    | droppedFull => simp [gameIter, hdr, hfr, hsf, List.count_cons, List.count_append, hcd]
    | panicDisconnected => exact absurd rfl hnp
  · by_cases hut : s.now - s.lastUpdate < target_update_time
    · simp [gameIter, hdr, hfr, hut, List.count_cons, List.count_append, hcd]
    · simp [gameIter, hdr, hfr, hut, List.count_cons, List.count_append, hcd]

theorem gameIter_redraw_no_sleep (pending : List Event) (evC : Bool) (pic : Chan Nat)
    (fb : Chan FeedbackEvent) (s : LogicState)
    (dacts : List Action) (fb2 : Chan FeedbackEvent)
    (hdr : drainLoop evC pending fb = (dacts, fb2, .drained))
    (hfr : s.now - s.lastFrame > target_frame_time) (d : Nat) :
    Action.sleep d ∉ (gameIter pending evC pic fb s).1 := by
  have hns : Action.sleep d ∉ dacts := by
    have h := drainLoop_no_action evC pending fb (Action.sleep d) rfl
    rw [hdr] at h
    exact h
  rcases hsf : submitFrame s.drawTicks pic with ⟨res, pic2⟩
  cases res <;> simp [gameIter, hdr, hfr, hsf, hns]

theorem idIter_keeper (n : Nat) (h : n < U64_MOD) :
    (idIter n initGameState).id_keeper = n := by
  induction n with
  | zero => rfl
  | succ k ih =>
    have hk : k < U64_MOD := Nat.lt_of_succ_lt h
    simp [idIter, ID.next, ih hk, Nat.mod_eq_of_lt h]

/-! ## Claim theorems -/

/-- C2: when `renderer.draw` fails on the presentation thread, the failure
is wrapped as a `Crash` notification, forwarded to the logic thread over
the event channel, and the presentation loop stops (`break 'events`) with
no frame presented; the logic thread, on consuming that `Crash`
notification, calls `game.crash` exactly once, then sends the `Exit`
feedback, then returns, with no further frame production or event dispatch
afterward (the trace ends at the feedback send and the outcome is
`returned`). -/
theorem crash_propagation :
    (∀ (err : Error) (fb : Chan FeedbackEvent) (ev : Chan Event) (pic : Chan Nat)
       (p : Nat) (rest : List Nat),
       fb.queue = [] → fb.connected = true → pic.queue = p :: rest →
       ev.connected = true → ev.queue.length < ev.cap →
       presentIter [] (some err) fb ev pic =
         ([.forwardCrash err], fb, { ev with queue := ev.queue ++ [.Crash err] },
          { pic with queue := rest }, .stop)) ∧
    (∀ (err : Error) (evC : Bool) (pic : Chan Nat) (fb : Chan FeedbackEvent)
       (s : LogicState),
       fb.connected = true → fb.queue.length < fb.cap →
       gameIter [.Crash err] evC pic fb s =
         ([Action.update, Action.crash err, Action.sendFeedbackExit],
          .returned pic { fb with queue := fb.queue ++ [.Exit] })) := by
  constructor
  · intro err fb ev pic p rest hfb hfbc hpq hevc hevroom
    exact presentIter_renderer_failure err fb ev pic p rest hfb hfbc hpq hevc hevroom
  · intro err evC pic fb s hconn hroom
    have hd := drainLoop_crash evC err fb hconn hroom
    exact gameIter_of_drain_returned _ evC pic fb s _ _ hd

theorem crash_propagation_witness :
    presentIter [] (some (.RendererError (-4))) initFeedbackChan initEventChan
        { queue := [3], cap := 1, connected := true } =
      ([.forwardCrash (.RendererError (-4))], initFeedbackChan,
       { initEventChan with queue := [.Crash (.RendererError (-4))] },
       { queue := [], cap := 1, connected := true }, .stop) ∧
    gameIter [.Crash (.RendererError (-4))] true initPicChan initFeedbackChan
        initLogicState =
      ([Action.update, Action.crash (.RendererError (-4)), Action.sendFeedbackExit],
       .returned initPicChan { initFeedbackChan with queue := [.Exit] }) :=
  ⟨crash_propagation.1 (.RendererError (-4)) initFeedbackChan initEventChan
      { queue := [3], cap := 1, connected := true } 3 [] rfl rfl rfl rfl (by decide),
   crash_propagation.2 (.RendererError (-4)) true initPicChan initFeedbackChan
      initLogicState rfl (by decide)⟩

/-- C3: input events travel to the logic thread through the bounded event
channel of capacity `EVENT_QUEUE_SIZE = 8`; the presentation side uses the
blocking `send`, which on a full queue blocks rather than dropping
(unlike frames), and otherwise enqueues at the back preserving FIFO order;
consequently, for events `E1..Ek` queued before an `Exit` event, the logic
thread dispatches `game.input E1, ..., game.input Ek` in order and only
then runs the terminal `Exit` transition. -/
theorem input_event_fifo :
    EVENT_QUEUE_SIZE = 8 ∧ initEventChan.cap = EVENT_QUEUE_SIZE ∧
    (∀ (c : Chan Event) (e : Event), c.connected = true →
       ¬ c.queue.length < c.cap → c.send e = .blocked) ∧
    (∀ (c : Chan Event) (e : Event), c.connected = true →
       c.queue.length < c.cap →
       c.send e = .sent { c with queue := c.queue ++ [e] }) ∧
    (∀ (inputs : List Nat) (evC : Bool) (pic : Chan Nat) (fb : Chan FeedbackEvent)
       (s : LogicState),
       fb.connected = true → fb.queue.length < fb.cap →
       gameIter ((inputs.map fun i => Event.Sdl2Event (some (.Input i))) ++
           [Event.Sdl2Event (some .Exit)]) evC pic fb s =
         (Action.update :: inputs.map Action.input ++
            [Action.close, Action.sendFeedbackExit],
          .returned pic { fb with queue := fb.queue ++ [.Exit] })) := by
  refine ⟨rfl, rfl, ?_, ?_, ?_⟩
  · intro c e hconn hfull
    exact send_full_blocks c e hconn hfull
  · intro c e hconn hroom
    exact send_room c e hconn hroom
  · intro inputs evC pic fb s hconn hroom
    have hd := drainLoop_inputs evC inputs [Event.Sdl2Event (some .Exit)] fb
    rw [drainLoop_exit evC fb hconn hroom] at hd
    have := gameIter_of_drain_returned _ evC pic fb s _ _ hd
    rw [this]
    simp

theorem input_event_fifo_witness :
    gameIter [Event.Sdl2Event (some (.Input 10)), Event.Sdl2Event (some (.Input 20)),
        Event.Sdl2Event (some .Exit)] true initPicChan initFeedbackChan initLogicState =
      ([Action.update, Action.input 10, Action.input 20,
        Action.close, Action.sendFeedbackExit],
       .returned initPicChan { initFeedbackChan with queue := [.Exit] }) :=
  input_event_fifo.2.2.2.2 [10, 20] true initPicChan initFeedbackChan initLogicState
    rfl (by decide)

/-- C4: consuming a terminal event first runs the simulation's cleanup
hook and only then sends the `Exit` feedback: for an `Exit` input event
`handle_event` emits `game.close()` and then the feedback send and reports
terminal; for a `Crash` notification it emits `game.crash(e)` and then the
feedback send; in the full loop iteration the outcome is `returned`, i.e.
the logic loop does not run again. -/
theorem exit_event_terminal_cleanup :
    (∀ fb : Chan FeedbackEvent, fb.connected = true → fb.queue.length < fb.cap →
       handle_event (.Sdl2Event (some .Exit)) fb =
         ([.close, .sendFeedbackExit], { fb with queue := fb.queue ++ [.Exit] },
          .terminal)) ∧
    (∀ (err : Error) (fb : Chan FeedbackEvent), fb.connected = true →
       fb.queue.length < fb.cap →
       handle_event (.Crash err) fb =
         ([.crash err, .sendFeedbackExit], { fb with queue := fb.queue ++ [.Exit] },
          .terminal)) ∧
    (∀ (evC : Bool) (pic : Chan Nat) (fb : Chan FeedbackEvent) (s : LogicState),
       fb.connected = true → fb.queue.length < fb.cap →
       gameIter [.Sdl2Event (some .Exit)] evC pic fb s =
         ([Action.update, Action.close, Action.sendFeedbackExit],
          .returned pic { fb with queue := fb.queue ++ [.Exit] })) := by
  refine ⟨?_, ?_, ?_⟩
  · intro fb hconn hroom
    exact handle_event_exit fb hconn hroom
  · intro err fb hconn hroom
    exact handle_event_crash err fb hconn hroom
  · intro evC pic fb s hconn hroom
    exact gameIter_of_drain_returned _ evC pic fb s _ _
      (drainLoop_exit evC fb hconn hroom)

theorem exit_event_terminal_cleanup_witness :
    handle_event (.Sdl2Event (some .Exit)) initFeedbackChan =
      ([.close, .sendFeedbackExit], { initFeedbackChan with queue := [.Exit] },
       .terminal) ∧
    gameIter [.Sdl2Event (some .Exit)] true initPicChan initFeedbackChan
        initLogicState =
      ([Action.update, Action.close, Action.sendFeedbackExit],
       .returned initPicChan { initFeedbackChan with queue := [.Exit] }) :=
  ⟨exit_event_terminal_cleanup.1 initFeedbackChan rfl (by decide),
   exit_event_terminal_cleanup.2.2 true initPicChan initFeedbackChan initLogicState
     rfl (by decide)⟩

/-- C8: if the event channel reports disconnected while the logic thread
drains events (empty queue, sender endpoint gone), the logic thread
returns at once: its iteration trace is just the initial update hook,
with no `game.close()` call and no `Exit` feedback sent. -/
theorem event_disconnect_skips_cleanup :
    ∀ (pic : Chan Nat) (fb : Chan FeedbackEvent) (s : LogicState),
      gameIter [] false pic fb s = ([Action.update], .returned pic fb) ∧
      Action.close ∉ (gameIter [] false pic fb s).1 ∧
      Action.sendFeedbackExit ∉ (gameIter [] false pic fb s).1 := by
  intro pic fb s
  refine ⟨?_, ?_, ?_⟩
  · exact gameIter_of_drain_returned [] false pic fb s [] fb rfl
  · rw [gameIter_of_drain_returned [] false pic fb s [] fb rfl]
    simp
  · rw [gameIter_of_drain_returned [] false pic fb s [] fb rfl]
    simp

/-- C5: a frame is produced exactly when the elapsed time since
`last_frame` strictly exceeds `target_frame_time` (8 ms, with
`target_update_time` 1 ms); on production the `last_frame` timestamp is
set to `now - (elapsed - target)` (subtracting only the overshoot, not
resetting to now) and the draw tick count advances by one; when not
produced, `last_frame` and the draw tick count are untouched and
`game.draw` is not called.  Idealized cadence scenario (zero-cost hooks,
sleep the only time sink): 112 loop iterations from startup land at
exactly 100 ms with exactly 12 draw ticks. -/
theorem frame_pacing :
    target_frame_time = MILLISECOND * 8 ∧ target_update_time = MILLISECOND ∧
    (∀ (pending : List Event) (evC : Bool) (pic : Chan Nat)
       (fb : Chan FeedbackEvent) (s : LogicState) (dacts : List Action)
       (fb2 : Chan FeedbackEvent),
       drainLoop evC pending fb = (dacts, fb2, .drained) →
       ¬ s.now - s.lastFrame > target_frame_time →
       ((gameIter pending evC pic fb s).2.stateOf).map LogicState.drawTicks =
           some s.drawTicks ∧
       ((gameIter pending evC pic fb s).2.stateOf).map LogicState.lastFrame =
           some s.lastFrame ∧
       Action.draw ∉ (gameIter pending evC pic fb s).1) ∧
    (∀ (pending : List Event) (evC : Bool) (pic : Chan Nat)
       (fb : Chan FeedbackEvent) (s : LogicState) (dacts : List Action)
       (fb2 : Chan FeedbackEvent),
       drainLoop evC pending fb = (dacts, fb2, .drained) →
       pic.connected = true →
       s.now - s.lastFrame > target_frame_time →
       (gameIter pending evC pic fb s).2.stateOf =
         some { s with
                  lastFrame := s.now - (s.now - s.lastFrame - target_frame_time),
                  lastDraw := s.now, drawTicks := s.drawTicks + 1,
                  lastUpdate := s.now, updateTicks := s.updateTicks + 1 } ∧
       Action.draw ∈ (gameIter pending evC pic fb s).1) ∧
    (gameRun 112 initPicChan initFeedbackChan initLogicState).now =
      100 * MILLISECOND ∧
    (gameRun 112 initPicChan initFeedbackChan initLogicState).drawTicks = 12 := by
  refine ⟨rfl, rfl, ?_, ?_, by decide, by decide⟩
  · intro pending evC pic fb s dacts fb2 hdr hfr
    exact gameIter_no_redraw_state pending evC pic fb s dacts fb2 hdr hfr
  · intro pending evC pic fb s dacts fb2 hdr hconn hfr
    exact gameIter_redraw pending evC pic fb s dacts fb2 hdr hconn hfr

theorem frame_pacing_witness :
    (gameIter [] true initPicChan initFeedbackChan
        { now := 9000000, lastFrame := 0, lastUpdate := 9000000, lastDraw := 0,
          updateTicks := 10, drawTicks := 0 }).2.stateOf =
      some { now := 9000000, lastFrame := 8000000, lastUpdate := 9000000,
             lastDraw := 9000000, updateTicks := 11, drawTicks := 1 } :=
  (frame_pacing.2.2.2.1 [] true initPicChan initFeedbackChan
      { now := 9000000, lastFrame := 0, lastUpdate := 9000000, lastDraw := 0,
        updateTicks := 10, drawTicks := 0 } [] initFeedbackChan rfl rfl
      (by decide)).1

/-- C6: every iteration of the logic loop invokes the simulation's update
hook exactly once, as its very first action; if the iteration reaches the
pacing tail (events drained, thread still live) and no frame was produced,
then when the time since the last update tick is below `target_update_time`
the thread sleeps exactly the remaining duration (advancing the clock by
it), and otherwise does not sleep; a frame-producing iteration never
sleeps; and the update timing tracker ticks exactly once per completed
iteration. -/
theorem update_hook_every_iteration :
    (∀ (pending : List Event) (evC : Bool) (pic : Chan Nat)
       (fb : Chan FeedbackEvent) (s : LogicState),
       ((gameIter pending evC pic fb s).1).head? = some Action.update) ∧
    (∀ (pending : List Event) (evC : Bool) (pic : Chan Nat)
       (fb : Chan FeedbackEvent) (s : LogicState),
       ((gameIter pending evC pic fb s).1).count Action.update = 1) ∧
    (∀ (pending : List Event) (evC : Bool) (pic : Chan Nat)
       (fb : Chan FeedbackEvent) (s : LogicState) (dacts : List Action)
       (fb2 : Chan FeedbackEvent),
       drainLoop evC pending fb = (dacts, fb2, .drained) →
       ¬ s.now - s.lastFrame > target_frame_time →
       s.now - s.lastUpdate < target_update_time →
       gameIter pending evC pic fb s =
         (Action.update :: dacts ++
            [Action.sleep (target_update_time - (s.now - s.lastUpdate)),
             Action.updateTick],
          .next { s with
                    now := s.now + (target_update_time - (s.now - s.lastUpdate)),
                    lastUpdate := s.now + (target_update_time - (s.now - s.lastUpdate)),
                    updateTicks := s.updateTicks + 1 } pic fb2)) ∧
    (∀ (pending : List Event) (evC : Bool) (pic : Chan Nat)
       (fb : Chan FeedbackEvent) (s : LogicState) (dacts : List Action)
       (fb2 : Chan FeedbackEvent),
       drainLoop evC pending fb = (dacts, fb2, .drained) →
       ¬ s.now - s.lastFrame > target_frame_time →
       ¬ s.now - s.lastUpdate < target_update_time →
       gameIter pending evC pic fb s =
         (Action.update :: dacts ++ [Action.updateTick],
          .next { s with lastUpdate := s.now, updateTicks := s.updateTicks + 1 }
            pic fb2)) ∧
    (∀ (pending : List Event) (evC : Bool) (pic : Chan Nat)
       (fb : Chan FeedbackEvent) (s : LogicState) (dacts : List Action)
       (fb2 : Chan FeedbackEvent),
       drainLoop evC pending fb = (dacts, fb2, .drained) →
       s.now - s.lastFrame > target_frame_time →
       ∀ d, Action.sleep d ∉ (gameIter pending evC pic fb s).1) ∧
    (∀ (pending : List Event) (evC : Bool) (pic : Chan Nat)
       (fb : Chan FeedbackEvent) (s : LogicState) (dacts : List Action)
       (fb2 : Chan FeedbackEvent),
       drainLoop evC pending fb = (dacts, fb2, .drained) →
       pic.connected = true →
       ((gameIter pending evC pic fb s).1).count Action.updateTick = 1) := by
  refine ⟨gameIter_head, gameIter_update_count, ?_, ?_, ?_, ?_⟩
  · intro pending evC pic fb s dacts fb2 hdr hfr hut
    exact gameIter_no_redraw_sleep pending evC pic fb s dacts fb2 hdr hfr hut
  · intro pending evC pic fb s dacts fb2 hdr hfr hut
    exact gameIter_no_redraw_no_sleep pending evC pic fb s dacts fb2 hdr hfr hut
  · intro pending evC pic fb s dacts fb2 hdr hfr d
    exact gameIter_redraw_no_sleep pending evC pic fb s dacts fb2 hdr hfr d
  · intro pending evC pic fb s dacts fb2 hdr hconn
    exact gameIter_updateTick_once pending evC pic fb s dacts fb2 hdr hconn

theorem update_hook_every_iteration_witness :
    gameIter [] true initPicChan initFeedbackChan
        { now := 5000000, lastFrame := 4800000, lastUpdate := 4600000,
          lastDraw := 4800000, updateTicks := 5, drawTicks := 1 } =
      (Action.update ::
         [] ++ [Action.sleep 600000, Action.updateTick],
       .next { now := 5600000, lastFrame := 4800000, lastUpdate := 5600000,
               lastDraw := 4800000, updateTicks := 6, drawTicks := 1 }
         initPicChan initFeedbackChan) :=
  update_hook_every_iteration.2.2.1 [] true initPicChan initFeedbackChan
    { now := 5000000, lastFrame := 4800000, lastUpdate := 4600000,
      lastDraw := 4800000, updateTicks := 5, drawTicks := 1 }
    [] initFeedbackChan rfl (by decide) (by decide)

/-- C7: the presentation loop polls: the feedback check and the frame
receive are the non-blocking `try_recv` each iteration — with the event
channel able to accept sends, an iteration can never end blocked; an
`Exit` feedback signal makes the iteration stop immediately with an empty
action trace (no OS events drained, no frame presented); and an iteration
that finds neither feedback nor a frame sleeps exactly the one-millisecond
quantum instead of spinning. -/
theorem presentation_polls_nonblocking :
    (∀ (os : List (Option EventHandleResult)) (rerr : Option Error)
       (fb : Chan FeedbackEvent) (ev : Chan Event) (pic : Chan Nat)
       (t : List FeedbackEvent),
       fb.queue = FeedbackEvent.Exit :: t →
       presentIter os rerr fb ev pic = ([], { fb with queue := t }, ev, pic, .stop)) ∧
    (∀ (fb : Chan FeedbackEvent) (ev : Chan Event) (pic : Chan Nat),
       fb.queue = [] → fb.connected = true → pic.queue = [] →
       pic.connected = true →
       presentIter [] none fb ev pic = ([.sleepMs], fb, ev, pic, .next)) ∧
    (∀ (rerr : Option Error) (fb : Chan FeedbackEvent) (ev : Chan Event)
       (pic : Chan Nat),
       ev.connected = true → ev.queue.length < ev.cap →
       (presentIter [] rerr fb ev pic).2.2.2.2 ≠ .blocked) := by
  refine ⟨?_, ?_, ?_⟩
  · intro os rerr fb ev pic t hfb
    exact presentIter_exit_feedback os rerr fb ev pic t hfb
  · intro fb ev pic hfb hfbc hpic hpicc
    exact presentIter_idle fb ev pic hfb hfbc hpic hpicc
  · intro rerr fb ev pic hevc hroom
    exact presentIter_no_receive_block rerr fb ev pic hevc hroom

theorem presentation_polls_nonblocking_witness :
    presentIter [some (.Input 3)] none
        { queue := [FeedbackEvent.Exit], cap := 1, connected := true }
        initEventChan initPicChan =
      ([], { queue := [], cap := 1, connected := true }, initEventChan,
       initPicChan, .stop) ∧
    presentIter [] none initFeedbackChan initEventChan initPicChan =
      ([.sleepMs], initFeedbackChan, initEventChan, initPicChan, .next) :=
  ⟨presentation_polls_nonblocking.1 [some (.Input 3)] none
      { queue := [FeedbackEvent.Exit], cap := 1, connected := true }
      initEventChan initPicChan [] rfl,
   presentation_polls_nonblocking.2.1 initFeedbackChan initEventChan initPicChan
     rfl rfl rfl rfl⟩

/-- C9: every access to the shared simulation state before it is
initialized (the thread-local cell still holds `none`, as it does on any
thread where the logic thread's initialization never ran) fails fast with
the descriptive panic message `State::PANIC_MESSAGE` — `with`, `with_mut`,
and the snapshot queries alike — and never yields a default value. -/
theorem uninitialized_state_fails_fast :
    (∀ {R : Type} (f : GameState → R), State.«with» none f = .error PANIC_MESSAGE) ∧
    (∀ {R : Type} (g : GameState → GameState × R),
       State.with_mut none g = .error PANIC_MESSAGE) ∧
    (∀ now : Nat, State.elapsed none now = .error PANIC_MESSAGE) ∧
    State.mouse_position none = .error PANIC_MESSAGE ∧
    (∀ {R : Type} (f : GameState → R) (r : R), State.«with» none f ≠ .ok r) ∧
    PANIC_MESSAGE = "Attempt to get game state while game is uninitialised" := by
  refine ⟨fun f => rfl, fun g => rfl, fun now => rfl, rfl, ?_, rfl⟩
  intro R f r h
  cases h

/-- C10: the unique-id generator reads the current counter and stores it
back incremented by one (u64 arithmetic); starting from the initial state
(`id_keeper: 0`), the `n`-th call returns `n` for every `n` below `2^64`,
so successive calls return strictly increasing — hence pairwise
distinct — identifiers beginning at 0. -/
theorem id_generator_monotonic :
    (∀ s : GameState,
       ID.next s = (s.id_keeper,
         { s with id_keeper := (s.id_keeper + 1) % U64_MOD })) ∧
    (∀ n : Nat, n < U64_MOD → idAt n initGameState = n) ∧
    (∀ i j : Nat, i < j → j < U64_MOD →
       idAt i initGameState < idAt j initGameState) ∧
    idAt 0 initGameState = 0 := by
  have hval : ∀ n : Nat, n < U64_MOD → idAt n initGameState = n := by
    intro n hn
    show (ID.next (idIter n initGameState)).1 = n
    simp [ID.next, idIter_keeper n hn]
  refine ⟨fun s => rfl, hval, ?_, rfl⟩
  intro i j hij hj
  rw [hval i (Nat.lt_trans hij hj), hval j hj]
  exact hij

theorem id_generator_monotonic_witness :
    idAt 5 initGameState = 5 ∧ idAt 1 initGameState < idAt 2 initGameState :=
  ⟨id_generator_monotonic.2.1 5 (by norm_num [U64_MOD]),
   id_generator_monotonic.2.2.1 1 2 (by decide) (by norm_num [U64_MOD])⟩

theorem frame_handoff_backpressure_witness :
    (submitFrames 5 initPicChan).queue.length = min 5 1 ∧
    submitFrame 9 { queue := [4], cap := 1, connected := true } =
      (.droppedFull, { queue := [4], cap := 1, connected := true }) ∧
    (submitFrame 9 { queue := [], cap := 1, connected := false }).1 =
      .panicDisconnected :=
  ⟨frame_handoff_backpressure.2.1 5,
   frame_handoff_backpressure.2.2.1 9
     { queue := [4], cap := 1, connected := true } rfl (by decide),
   frame_handoff_backpressure.2.2.2 9
     { queue := [], cap := 1, connected := false } rfl⟩

end Tachibana
